import Mathlib

/-!
Shallow embedding of the cohort form view
(src/unnamed/part_000, a Backbone.View named edx.groups.CohortFormView)
and of the account settings model
(src/lms/static/js/student_account/models/account_settings_models.js).

JavaScript DOM reads are modelled by a `FormDom` record holding the values the
view reads through jQuery; the Backbone cohort model is a `CohortModel` record;
the single asynchronous network save is modelled by parametrising `saveForm`
over a `SaveOutcome` (success with the id returned by the server, or failure
with the result of JSON-parsing the response body).  JS builtins used by the
code (parseInt, String.prototype.split, String.prototype.trim, JSON.parse,
property access, truthiness) are modelled explicitly below.
-/

/-- JavaScript runtime values, as far as the cohort form code needs them:
the possible results of JSON.parse and the values given to notifications. -/
inductive JsValue where
  | null
  | undefined
  | bool (b : Bool)
  | num (n : Int)
  | str (s : String)
  | obj (fields : List (String × JsValue))

/-- JavaScript truthiness of a value, used by `if (!errorMessage)`. -/
def JsValue.truthy : JsValue → Bool
  | .null => false
  | .undefined => false
  | .bool b => b
  | .num n => n != 0
  | .str s => s != ""
  | .obj _ => true

/-- Model of the JS whitespace characters relevant to parseInt and trim. -/
def jsWhitespace (c : Char) : Bool :=
  c == ' ' || c == '\t' || c == '\n' || c == '\r'

/-- Numeric value of a list of decimal digit characters. -/
def digitsVal (ds : List Char) : Nat :=
  ds.foldl (fun a c => 10 * a + (c.toNat - 48)) 0

/-- Longest decimal digit prefix of a character list, none when there is no digit. -/
def digitsPrefix (cs : List Char) : Option Nat :=
  let ds := cs.takeWhile Char.isDigit
  if ds.isEmpty then none else some (digitsVal ds)

/-- Model of the JS builtin parseInt with no radix argument on the decimal
inputs this code can produce: skip leading whitespace, an optional sign, then
the longest run of decimal digits; NaN (modelled as none) when no digit
follows.  NaN compares unequal to every number, which `Option.bind` and the
equality test on `Option Int` reproduce. -/
def parseIntJS (s : String) : Option Int :=
  let cs := s.data.dropWhile jsWhitespace
  match cs with
  | '-' :: rest => (digitsPrefix rest).map (fun n => -(n : Int))
  | '+' :: rest => (digitsPrefix rest).map (fun n => (n : Int))
  | _ => (digitsPrefix cs).map (fun n => (n : Int))

/-- Splitting a character list at a separator character, JS-style:
the result always has one more piece than there are separators. -/
def splitOnChar (sep : Char) : List Char → List (List Char)
  | [] => [[]]
  | c :: rest =>
    let r := splitOnChar sep rest
    if c = sep then
      [] :: r
    else
      match r with
      | h :: t => (c :: h) :: t
      | [] => [[c]]

/-- Model of the JS builtin String.prototype.split with a one-character
separator, as used by selectValue.split of the colon. -/
def jsSplit (s : String) (sep : Char) : List String :=
  (splitOnChar sep s.data).map String.mk

/-- Model of the JS builtin String.prototype.trim: drop leading and trailing
whitespace. -/
def jsTrim (s : String) : String :=
  String.mk (((s.data.dropWhile jsWhitespace).reverse.dropWhile jsWhitespace).reverse)

/-- A content group, as read from the Backbone models in this.contentGroups:
the code reads get of id, get of user_partition_id, and the id property. -/
structure ContentGroup where
  id : Int
  user_partition_id : Int
deriving DecidableEq

/-- A sibling cohort in the model collection, as read by isDefault. -/
structure CohortSibling where
  name : String
  assignment_type : String
deriving DecidableEq

/-- The cohort Backbone model: its id (undefined for a not yet saved cohort,
modelled as none), its name attribute, and its collection (undefined when the
model is not in a collection). -/
structure CohortModel where
  id : Option Int
  name : String
  collection : Option (List CohortSibling)

/-- The DOM state the view reads through jQuery: whether the radio-yes button
is checked, the value of the input-cohort-group-association select, the value
of the cohort-name input (none when the element is absent, so that val
returns undefined), and the value of the checked cohort-assignment-type radio
(none when no radio is checked). -/
structure FormDom where
  radioYesChecked : Bool
  groupAssociationValue : String
  cohortNameValue : Option String
  assignmentTypeValue : Option String

/-- Embedding of CohortFormView.hasAssociatedContentGroup (part_000 lines
65-67): returns the checked property of the radio-yes button. -/
def hasAssociatedContentGroup (dom : FormDom) : Bool :=
  dom.radioYesChecked

/-- Embedding of CohortFormView.getSelectedContentGroup (part_000 lines
69-85): null unless the radio is checked and the select value is not the
string None; otherwise split the select value at the colon, parseInt both
pieces, and return the first content group matching both, else null. -/
def getSelectedContentGroup (dom : FormDom) (contentGroups : List ContentGroup) :
    Option ContentGroup :=
  let selectValue := dom.groupAssociationValue
  if !hasAssociatedContentGroup dom || selectValue == "None" then
    none
  else
    let ids := jsSplit selectValue ':'
    let groupId := (ids[0]?).bind parseIntJS
    let userPartitionId := (ids[1]?).bind parseIntJS
    contentGroups.find? (fun g =>
      some g.id == groupId && some g.user_partition_id == userPartitionId)

/-- Embedding of CohortFormView.getUpdatedCohortName (part_000 lines 87-90):
the trimmed input value when it is truthy (present and non-empty), else the
name attribute of the model. -/
def getUpdatedCohortName (dom : FormDom) (model : CohortModel) : String :=
  match dom.cohortNameValue with
  | some cohortName => if cohortName != "" then jsTrim cohortName else model.name
  | none => model.name

/-- Embedding of CohortFormView.getAssignmentType (part_000 lines 92-94):
the value of the checked assignment-type radio, undefined when none. -/
def getAssignmentType (dom : FormDom) : Option String :=
  dom.assignmentTypeValue

/-- Embedding of CohortFormView.isDefault (part_000 lines 45-51): false when
the model collection is undefined; otherwise filter the collection down to
the cohorts whose assignment_type is random, and return whether there is
exactly one and its name equals the given name. -/
def isDefault (model : CohortModel) (name : String) : Bool :=
  match model.collection with
  | none => false
  | some cohorts =>
    let randomModels := cohorts.filter (fun c => c.assignment_type == "random")
    randomModels.length == 1 &&
      (match randomModels with
        | c :: _ => c.name == name
        | [] => false)

/-- The gettext source strings used by validate and saveForm (gettext is
modelled as the identity on the source language). -/
def msgNameRequired : String := "You must specify a name for the cohort"

/-- Validation message for a None selection with the radio checked. -/
def msgNoGroupSelected : String := "You did not select a content group"

/-- Validation message for a selected but unknown content group. -/
def msgGroupDoesNotExist : String := "The selected content group does not exist"

/-- Notification title when an update fails validation. -/
def msgCannotSave : String := "The cohort cannot be saved"

/-- Notification title when a creation fails validation. -/
def msgCannotAdd : String := "The cohort cannot be added"

/-- The generic fallback error message of the failure callback. -/
def msgGenericError : String :=
  "We\'ve encountered an error. Refresh your browser and then try again."

/-- The field data record saveForm builds and passes to validate and to the
network save. -/
structure FieldData where
  name : String
  group_id : Option Int
  user_partition_id : Option Int
  assignment_type : Option String

/-- Embedding of CohortFormView.validate (part_000 lines 107-122): start from
an empty message list; push the name message when the name is falsy; push one
content-group message when the radio is checked and group_id is null (which
message depends on whether the select value is None). -/
def validate (dom : FormDom) (fieldData : FieldData) : List String :=
  let e1 := if fieldData.name == "" then [msgNameRequired] else []
  let e2 :=
    if hasAssociatedContentGroup dom && fieldData.group_id.isNone then
      if dom.groupAssociationValue == "None" then [msgNoGroupSelected]
      else [msgGroupDoesNotExist]
    else []
  e1 ++ e2

/-- A notification record as produced by showMessage. -/
structure Notification where
  type : String
  title : JsValue
  details : Option (List String)

/-- Embedding of CohortFormView.showMessage (part_000 lines 100-105) as the
notification it creates: type defaults to confirmation when absent. -/
def showMessage (message : JsValue) (msgType : Option String)
    (details : Option (List String)) : Notification :=
  { type := msgType.getD "confirmation", title := message, details := details }

/-- The outcome of the cohort.save network call: success carries result.id
from the server response; failure carries the result of the JSON.parse builtin
applied to result.responseText (none when parsing threw). -/
inductive SaveOutcome where
  | success (resultId : Int)
  | failure (parsedBody : Option JsValue)

/-- Whether the outcome is a success. -/
def SaveOutcome.isSuccess : SaveOutcome → Bool
  | .success _ => true
  | .failure _ => false

/-- The errorMessage variable right after the try block of the failure
callback (part_000 lines 158-164): null when JSON.parse threw; null when the
parsed value is null or undefined, because the property access throws inside
the try and is caught; the error property for an object; undefined for any
other primitive, whose property access yields undefined. -/
def extractedErrorMessage (parsedBody : Option JsValue) : JsValue :=
  match parsedBody with
  | none => .null
  | some .null => .null
  | some .undefined => .null
  | some (.obj fields) => (fields.lookup "error").getD .undefined
  | some _ => .undefined

/-- One network save request as issued by cohort.save(fieldData,
\x7bpatch: isUpdate, wait: true\x7d). -/
structure SaveRequest where
  fieldData : FieldData
  patch : Bool
  wait : Bool

/-- Everything observable from one call to saveForm: the network requests
issued, the notifications shown, the settle events of the returned promise in
order (true = resolve, false = reject), the model id afterwards, and whether
the view was re-rendered. -/
structure SaveFormResult where
  requests : List SaveRequest
  notifications : List Notification
  settleEvents : List Bool
  finalModelId : Option Int
  rerendered : Bool

/-- The fieldData record built at part_000 lines 136-141. -/
def mkFieldData (dom : FormDom) (model : CohortModel)
    (contentGroups : List ContentGroup) : FieldData :=
  let selectedContentGroup := getSelectedContentGroup dom contentGroups
  { name := getUpdatedCohortName dom model,
    group_id := selectedContentGroup.map (fun g => g.id),
    user_partition_id := selectedContentGroup.map (fun g => g.user_partition_id),
    assignment_type := getAssignmentType dom }

/-- Embedding of CohortFormView.saveForm (part_000 lines 124-173).  isUpdate
is whether the model id is defined; when validate returns messages, an error
notification is shown and the deferred is rejected without any network call;
otherwise one save request is issued (patch exactly when updating) and the
deferred is resolved on success (after updating the model id from the
response and re-rendering) or rejected on failure (after showing the parsed
error message or the generic fallback). -/
def saveForm (dom : FormDom) (model : CohortModel)
    (contentGroups : List ContentGroup) (outcome : SaveOutcome) : SaveFormResult :=
  let isUpdate := model.id.isSome
  let fieldData := mkFieldData dom model contentGroups
  let errorMessages := validate dom fieldData
  if errorMessages.length > 0 then
    { requests := [],
      notifications :=
        [showMessage (.str (if isUpdate then msgCannotSave else msgCannotAdd))
          (some "error") (some errorMessages)],
      settleEvents := [false],
      finalModelId := model.id,
      rerendered := false }
  else
    let request : SaveRequest := { fieldData := fieldData, patch := isUpdate, wait := true }
    match outcome with
    | .success resultId =>
      { requests := [request],
        notifications := [],
        settleEvents := [true],
        finalModelId := some resultId,
        rerendered := true }
    | .failure parsedBody =>
      let errorMessage := extractedErrorMessage parsedBody
      let finalMessage := if errorMessage.truthy then errorMessage else .str msgGenericError
      { requests := [request],
        notifications := [showMessage finalMessage (some "error") none],
        settleEvents := [false],
        finalModelId := model.id,
        rerendered := false }

/-- The notification state of the view: the this.notification field (the id
of the last created notification view, none before the first one) and the ids
of the notification elements currently attached to the DOM. -/
structure NotifState where
  notification : Option Nat
  attached : List Nat

/-- Embedding of CohortFormView.removeNotification (part_000 lines 29-33):
when this.notification is set, remove that notification view, detaching its
element from the DOM; otherwise do nothing. -/
def removeNotification (s : NotifState) : NotifState :=
  match s.notification with
  | none => s
  | some n => { s with attached := s.attached.filter (fun m => m != n) }

/-- Embedding of CohortFormView.showNotification (part_000 lines 19-27):
first removeNotification, then create a fresh notification view, store it in
this.notification, attach its element before the target element and render. -/
def showNotification (s : NotifState) (newId : Nat) : NotifState :=
  let s1 := removeNotification s
  { notification := some newId, attached := s1.attached ++ [newId] }

/-- The reachable-state invariant of the notification machinery: either
nothing is attached, or exactly the element of the view stored in
this.notification is attached. -/
def NotifInv (s : NotifState) : Prop :=
  s.attached = [] ∨ ∃ n, s.notification = some n ∧ s.attached = [n]

/-- Embedding of the AccountSettingsModel idAttribute
(account_settings_models.js line 8). -/
def accountSettingsIdAttribute : String := "username"

/-- Embedding of the AccountSettingsModel defaults record
(account_settings_models.js lines 9-22), in source order. -/
def accountSettingsDefaults : List (String × JsValue) :=
  [("username", .str ""),
   ("name", .str ""),
   ("email", .str ""),
   ("password", .str ""),
   ("language", .null),
   ("country", .null),
   ("date_joined", .str ""),
   ("gender", .null),
   ("goals", .str ""),
   ("level_of_education", .null),
   ("mailing_address", .str ""),
   ("year_of_birth", .null)]

/-- Sample DOM state that fails validation: radio checked, select on None,
empty name. -/
def domBad : FormDom :=
  { radioYesChecked := true, groupAssociationValue := "None",
    cohortNameValue := some "", assignmentTypeValue := none }

/-- Sample DOM state that passes validation: radio unchecked, non-empty name. -/
def domOk : FormDom :=
  { radioYesChecked := false, groupAssociationValue := "None",
    cohortNameValue := some "MyCohort", assignmentTypeValue := some "manual" }

/-- Sample new cohort model (no id yet). -/
def model0 : CohortModel :=
  { id := none, name := "Old", collection := none }

/-- Sample existing cohort model (defined id). -/
def modelWithId : CohortModel :=
  { id := some 7, name := "Old", collection := none }

/-- The select predicate of getSelectedContentGroup, named for the statements:
the group matches both integers parsed from the select value. -/
def matchesSelection (dom : FormDom) (g : ContentGroup) : Bool :=
  some g.id == ((jsSplit dom.groupAssociationValue ':')[0]?).bind parseIntJS &&
  some g.user_partition_id == ((jsSplit dom.groupAssociationValue ':')[1]?).bind parseIntJS

/-- Sample DOM state selecting content group 2 of user partition 5. -/
def domSel : FormDom :=
  { radioYesChecked := true, groupAssociationValue := "2:5",
    cohortNameValue := some "n", assignmentTypeValue := none }

/-- The content group with id 2 and user_partition_id 5. -/
def cg25 : ContentGroup := { id := 2, user_partition_id := 5 }

/-- DOM state with a name input carrying surrounding whitespace. -/
def domSpaced : FormDom :=
  { radioYesChecked := false, groupAssociationValue := "None",
    cohortNameValue := some "  My Cohort  ", assignmentTypeValue := none }

/-- Claim C1: for every field-data record, validate returns a non-empty error
list if and only if the name is empty (falsy) or the associated content group
radio is checked while group_id is null; otherwise it returns the empty list,
and no other check is performed. -/
theorem validate_errors_iff (dom : FormDom) (fd : FieldData) :
    validate dom fd ≠ [] ↔
      (fd.name = "" ∨ (dom.radioYesChecked = true ∧ fd.group_id = none)) := by
  rcases fd with ⟨nm, gid, upid, aty⟩
  by_cases h1 : nm = "" <;> cases hgid : gid <;> cases hr : dom.radioYesChecked <;>
    by_cases h4 : dom.groupAssociationValue = "None" <;>
    simp [validate, hasAssociatedContentGroup, h1, hr, h4,
      msgNameRequired, msgNoGroupSelected, msgGroupDoesNotExist]

/-- Claim C10: isDefault returns true exactly when the model belongs to a
defined collection containing exactly one cohort of assignment_type random,
and that cohort bears the given name; in particular it is false when the
collection is undefined or the number of random cohorts is not one. -/
theorem isDefault_iff (model : CohortModel) (name : String) :
    isDefault model name = true ↔
      ∃ cohorts c, model.collection = some cohorts ∧
        cohorts.filter (fun x => x.assignment_type == "random") = [c] ∧
        c.name = name := by
  unfold isDefault
  cases hc : model.collection with
  | none => simp
  | some cohorts =>
    simp only [hc, Option.some.injEq]
    cases hf : cohorts.filter (fun c => c.assignment_type == "random") with
    | nil => simp [hf]
    | cons c t =>
      cases t with
      | nil =>
        simp only [hf, List.length_cons, List.length_nil]
        constructor
        · intro h
          have h2 := (Bool.and_eq_true _ _).mp h
          exact ⟨cohorts, c, rfl, hf, by simpa using h2.2⟩
        · rintro ⟨cs, c2, hcs, hfs, hn⟩
          subst hcs
          rw [hf] at hfs
          cases hfs
          simp [hn]
      | cons c2 t2 => simp [hf]

/-- Claim C9: getUpdatedCohortName returns the trimmed input value when the
name input holds a non-empty string, and falls back to the name attribute of
the model when the input value is empty or the input is absent. -/
theorem getUpdatedCohortName_spec (dom : FormDom) (model : CohortModel) :
    ((dom.cohortNameValue = none ∨ dom.cohortNameValue = some "") →
      getUpdatedCohortName dom model = model.name) ∧
    (∀ s : String, dom.cohortNameValue = some s → s ≠ "" →
      getUpdatedCohortName dom model = jsTrim s) := by
  constructor
  · rintro (h | h) <;> simp [getUpdatedCohortName, h]
  · intro s hs hne
    simp [getUpdatedCohortName, hs, hne]

/-- Claim C8: the notification invariant (nothing attached, or exactly the
element of the view stored in this.notification) is preserved by
removeNotification and showNotification; after showNotification exactly the
new notification is attached, and removeNotification does nothing when no
notification was ever created. -/
theorem notification_at_most_one (s : NotifState) (newId : Nat) :
    (s.notification = none → removeNotification s = s) ∧
    (NotifInv s →
      NotifInv (removeNotification s) ∧
      NotifInv (showNotification s newId) ∧
      (showNotification s newId).attached = [newId]) := by
  constructor
  · intro h
    simp [removeNotification, h]
  · intro hinv
    have hrem : (removeNotification s).attached = [] := by
      rcases hinv with h | ⟨n, hn, ha⟩
      · cases hs : s.notification <;> simp [removeNotification, hs, h]
      · simp [removeNotification, hn, ha]
    have hshow : (showNotification s newId).attached = [newId] := by
      simp [showNotification, hrem]
    exact ⟨Or.inl hrem, Or.inr ⟨newId, rfl, hshow⟩, hshow⟩

/-- Claim C6: the AccountSettingsModel defaults record holds exactly the
twelve claimed fields in source order, the string-valued ones defaulting to
the empty string and the rest to null, and the id attribute is username. -/
theorem accountSettings_defaults_spec :
    accountSettingsDefaults.map Prod.fst =
      ["username", "name", "email", "password", "language", "country",
       "date_joined", "gender", "goals", "level_of_education",
       "mailing_address", "year_of_birth"] ∧
    accountSettingsDefaults.lookup "username" = some (JsValue.str "") ∧
    accountSettingsDefaults.lookup "name" = some (JsValue.str "") ∧
    accountSettingsDefaults.lookup "email" = some (JsValue.str "") ∧
    accountSettingsDefaults.lookup "password" = some (JsValue.str "") ∧
    accountSettingsDefaults.lookup "language" = some JsValue.null ∧
    accountSettingsDefaults.lookup "country" = some JsValue.null ∧
    accountSettingsDefaults.lookup "date_joined" = some (JsValue.str "") ∧
    accountSettingsDefaults.lookup "gender" = some JsValue.null ∧
    accountSettingsDefaults.lookup "goals" = some (JsValue.str "") ∧
    accountSettingsDefaults.lookup "level_of_education" = some JsValue.null ∧
    accountSettingsDefaults.lookup "mailing_address" = some (JsValue.str "") ∧
    accountSettingsDefaults.lookup "year_of_birth" = some JsValue.null ∧
    accountSettingsIdAttribute = "username" :=
  ⟨rfl, rfl, rfl, rfl, rfl, rfl, rfl, rfl, rfl, rfl, rfl, rfl, rfl, rfl⟩

/-- Claim C5: getSelectedContentGroup returns null when the radio is
unchecked or the select value is None, and otherwise returns the first
content group of the list whose id equals the integer parsed before the colon
of the select value and whose user_partition_id equals the integer parsed
after it (null when no such group is in the list). -/
theorem getSelectedContentGroup_spec (dom : FormDom) (cgs : List ContentGroup) :
    ((dom.radioYesChecked = false ∨ dom.groupAssociationValue = "None") →
      getSelectedContentGroup dom cgs = none) ∧
    (dom.radioYesChecked = true → dom.groupAssociationValue ≠ "None" →
      (∀ g : ContentGroup, getSelectedContentGroup dom cgs = some g →
        g ∈ cgs ∧ matchesSelection dom g = true) ∧
      (cgs.all (fun g => !matchesSelection dom g) = true →
        getSelectedContentGroup dom cgs = none) ∧
      getSelectedContentGroup dom cgs = cgs.find? (fun g => matchesSelection dom g)) := by
  constructor
  · rintro (h | h) <;> simp [getSelectedContentGroup, hasAssociatedContentGroup, h]
  · intro h1 h2
    have hg : getSelectedContentGroup dom cgs =
        cgs.find? (fun g => matchesSelection dom g) := by
      simp [getSelectedContentGroup, hasAssociatedContentGroup, matchesSelection, h1, h2]
    refine ⟨?_, ?_, hg⟩
    · intro g hsome
      rw [hg] at hsome
      exact ⟨List.mem_of_find?_eq_some hsome, List.find?_some hsome⟩
    · intro hall
      rw [hg]
      apply List.find?_eq_none.mpr
      intro x hx
      have hx2 := (List.all_eq_true.mp hall) x hx
      simp only [Bool.not_eq_true'] at hx2
      simp [hx2]

/-- Claim C2: when validate returns at least one message, saveForm issues no
network request, shows the cannot-save or cannot-add error notification
carrying those messages, and rejects its promise; a network request is issued
only when the message list is empty. -/
theorem saveForm_validation_blocks_save (dom : FormDom) (model : CohortModel)
    (cgs : List ContentGroup) (outcome : SaveOutcome) :
    (validate dom (mkFieldData dom model cgs) ≠ [] →
      (saveForm dom model cgs outcome).requests = [] ∧
      (saveForm dom model cgs outcome).notifications =
        [showMessage
          (JsValue.str (if model.id.isSome then msgCannotSave else msgCannotAdd))
          (some "error") (some (validate dom (mkFieldData dom model cgs)))] ∧
      (saveForm dom model cgs outcome).settleEvents = [false]) ∧
    ((saveForm dom model cgs outcome).requests ≠ [] →
      validate dom (mkFieldData dom model cgs) = []) := by
  by_cases hv : validate dom (mkFieldData dom model cgs) = []
  · exact ⟨fun h => absurd hv h, fun _ => hv⟩
  · have hlen : 0 < (validate dom (mkFieldData dom model cgs)).length :=
      List.length_pos.mpr hv
    constructor
    · intro _
      refine ⟨?_, ?_, ?_⟩ <;> simp [saveForm, hlen]
    · intro hreq
      exfalso
      apply hreq
      simp [saveForm, hlen]

/-- Claim C3: every call to saveForm issues at most one network save, and any
request it issues is a partial update (patch) exactly when the cohort model
already has a defined id. -/
theorem saveForm_patch_iff_existing_id (dom : FormDom) (model : CohortModel)
    (cgs : List ContentGroup) (outcome : SaveOutcome) :
    (saveForm dom model cgs outcome).requests.length ≤ 1 ∧
    (saveForm dom model cgs outcome).requests.all
      (fun r => r.patch == model.id.isSome) = true := by
  by_cases hv : validate dom (mkFieldData dom model cgs) = []
  · cases outcome <;> simp [saveForm, hv]
  · have hlen : 0 < (validate dom (mkFieldData dom model cgs)).length :=
      List.length_pos.mpr hv
    cases outcome <;> simp [saveForm, hlen]

/-- Claim C7: the promise returned by saveForm settles exactly once; it
resolves exactly when validation passed and the single network save
succeeded, in which case the view was re-rendered and the model id was taken
from the response; at most one network save is issued per call. -/
theorem saveForm_settles_exactly_once (dom : FormDom) (model : CohortModel)
    (cgs : List ContentGroup) (outcome : SaveOutcome) :
    (saveForm dom model cgs outcome).settleEvents.length = 1 ∧
    ((saveForm dom model cgs outcome).settleEvents = [true] ↔
      (validate dom (mkFieldData dom model cgs) = [] ∧ outcome.isSuccess = true)) ∧
    (saveForm dom model cgs outcome).requests.length ≤ 1 ∧
    (∀ i : Int, outcome = SaveOutcome.success i →
      validate dom (mkFieldData dom model cgs) = [] →
      (saveForm dom model cgs outcome).rerendered = true ∧
      (saveForm dom model cgs outcome).finalModelId = some i) := by
  by_cases hv : validate dom (mkFieldData dom model cgs) = []
  · cases outcome <;> simp [saveForm, hv, SaveOutcome.isSuccess]
  · have hlen : 0 < (validate dom (mkFieldData dom model cgs)).length :=
      List.length_pos.mpr hv
    cases outcome <;> simp [saveForm, hlen, hv, SaveOutcome.isSuccess]

/-- Claim C4 (amended): when validation passed and the network save fails,
exactly one error notification is shown, whose message is the error value
extracted from the JSON-parsed response body when that value is truthy (for a
string: non-empty), and the generic fallback string otherwise (parse failure,
missing, null, empty-string or otherwise falsy error value); the promise is
rejected in every failure case. -/
theorem saveForm_failure_shows_error_or_fallback (dom : FormDom)
    (model : CohortModel) (cgs : List ContentGroup) (parsedBody : Option JsValue)
    (h : validate dom (mkFieldData dom model cgs) = []) :
    (saveForm dom model cgs (SaveOutcome.failure parsedBody)).settleEvents = [false] ∧
    (saveForm dom model cgs (SaveOutcome.failure parsedBody)).notifications =
      [showMessage
        (if (extractedErrorMessage parsedBody).truthy then
          extractedErrorMessage parsedBody
        else JsValue.str msgGenericError)
        (some "error") none] := by
  constructor <;> simp [saveForm, h]

/-- Witness for the failure-message theorem at a concrete input: validation
passes, the body parses to an object with a non-empty error string, and that
string is shown while the promise is rejected. -/
theorem saveForm_failure_shows_error_or_fallback_witness :
    validate domOk (mkFieldData domOk model0 []) = [] ∧
    (saveForm domOk model0 []
      (SaveOutcome.failure (some (JsValue.obj [("error", JsValue.str "boom")])))).settleEvents
        = [false] ∧
    (saveForm domOk model0 []
      (SaveOutcome.failure (some (JsValue.obj [("error", JsValue.str "boom")])))).notifications
        = [showMessage (JsValue.str "boom") (some "error") none] := by
  have h0 : validate domOk (mkFieldData domOk model0 []) = [] := rfl
  have h := saveForm_failure_shows_error_or_fallback domOk model0 []
    (some (JsValue.obj [("error", JsValue.str "boom")])) h0
  refine ⟨h0, h.1, ?_⟩
  rw [h.2]
  rfl

/-- Counterexample to claim C4 as stated: a failure response whose JSON body
parses to an object whose error property is the number 5 (so no error string
can be read from the body) is shown as the number 5, not as the generic
fallback string. -/
theorem saveForm_failure_nonstring_error_counterexample :
    (saveForm domOk model0 []
      (SaveOutcome.failure (some (JsValue.obj [("error", JsValue.num 5)])))).notifications.map
        Notification.title = [JsValue.num 5] ∧
    JsValue.num 5 ≠ JsValue.str msgGenericError := by
  exact ⟨rfl, fun hcontra => JsValue.noConfusion hcontra⟩

/-- A field-data record with an empty name and no group. -/
def fdEmptyName : FieldData :=
  { name := "", group_id := none, user_partition_id := none, assignment_type := none }

/-- Witness for the validate characterisation: an empty name yields a
non-empty error list. -/
theorem validate_errors_iff_witness : validate domBad fdEmptyName ≠ [] :=
  (validate_errors_iff domBad fdEmptyName).mpr (Or.inl rfl)

/-- Witness for the validation-blocks-save theorem at a concrete input: the
radio is checked with the select on None, so validation fails, no request is
issued and the promise is rejected. -/
theorem saveForm_validation_blocks_save_witness :
    validate domBad (mkFieldData domBad model0 []) ≠ [] ∧
    (saveForm domBad model0 [] (SaveOutcome.success 1)).requests = [] ∧
    (saveForm domBad model0 [] (SaveOutcome.success 1)).settleEvents = [false] := by
  have hne : validate domBad (mkFieldData domBad model0 []) ≠ [] := by decide
  have h := (saveForm_validation_blocks_save domBad model0 [] (SaveOutcome.success 1)).1 hne
  exact ⟨hne, h.1, h.2.2⟩

/-- Witness for the settle-exactly-once theorem at a concrete input: a
successful save of a valid form resolves once, re-renders and adopts the
server id. -/
theorem saveForm_settles_exactly_once_witness :
    validate domOk (mkFieldData domOk model0 []) = [] ∧
    (saveForm domOk model0 [] (SaveOutcome.success 42)).rerendered = true ∧
    (saveForm domOk model0 [] (SaveOutcome.success 42)).finalModelId = some 42 := by
  have hv : validate domOk (mkFieldData domOk model0 []) = [] := rfl
  have h := (saveForm_settles_exactly_once domOk model0 []
    (SaveOutcome.success 42)).2.2.2 42 rfl hv
  exact ⟨hv, h.1, h.2⟩

/-- Witness for the content-group lookup at a concrete input: with the radio
checked and select value 2:5, the group with id 2 in user partition 5 is
found, is a member, and matches both parsed integers. -/
theorem getSelectedContentGroup_spec_witness :
    getSelectedContentGroup domSel [cg25] = some cg25 ∧
    cg25 ∈ [cg25] ∧ matchesSelection domSel cg25 = true := by
  have hs : getSelectedContentGroup domSel [cg25] = some cg25 := by decide
  have h := ((getSelectedContentGroup_spec domSel [cg25]).2 rfl (by decide)).1 cg25 hs
  exact ⟨hs, h.1, h.2⟩

/-- Witness for the cohort-name theorem at a concrete input: surrounding
whitespace of the input value is trimmed away. -/
theorem getUpdatedCohortName_spec_witness :
    getUpdatedCohortName domSpaced model0 = "My Cohort" := by
  have h := (getUpdatedCohortName_spec domSpaced model0).2 "  My Cohort  " rfl (by decide)
  rw [h]
  rfl

/-- Witness for the notification invariant at a concrete state: from the
initial state (no notification) removeNotification does nothing and
showNotification attaches exactly the new notification. -/
theorem notification_at_most_one_witness :
    removeNotification { notification := none, attached := [] } =
      { notification := none, attached := [] } ∧
    (showNotification { notification := none, attached := [] } 7).attached = [7] := by
  have h := notification_at_most_one { notification := none, attached := [] } 7
  exact ⟨h.1 rfl, (h.2 (Or.inl rfl)).2.2⟩

/-- A collection with exactly one random cohort, named A. -/
def collOneRandom : List CohortSibling :=
  [{ name := "A", assignment_type := "random" },
   { name := "B", assignment_type := "manual" }]

/-- A cohort model living in that collection. -/
def modelInColl : CohortModel :=
  { id := some 1, name := "A", collection := some collOneRandom }

/-- Witness for the isDefault characterisation at a concrete input: with
exactly one random cohort named A in the collection, isDefault holds of A. -/
theorem isDefault_iff_witness : isDefault modelInColl "A" = true :=
  (isDefault_iff modelInColl "A").mpr
    ⟨collOneRandom, { name := "A", assignment_type := "random" }, rfl, by decide, rfl⟩
